import Mathlib

/-!
Shallow embedding of `src/libthread/libthread.c` (gear-lib's libthread
module) and verification of its specification.

The C module wraps one OS thread plus one synchronization primitive chosen
at creation time from `enum lock_type`.  The underlying primitives
(`spin_lock`, `mutex_lock`, `sem_lock_wait`, `mutex_cond_signal`, ...,
`pthread_*`) are external: here they appear as opaque events.  Each public
operation of the module is translated into a Lean function that returns the
ordered list of primitive calls the C body performs together with the value
the C function returns, and (for the per-instance operations) the possibly
updated handle, so that absence of mutation is itself a provable fact of
the embedding rather than an assumption.
-/

namespace Libthread

/-- The C `enum lock_type`: the values referenced by `libthread.c`. -/
inductive lock_type
  | LOCK_SPIN
  | LOCK_MUTEX
  | LOCK_SEM
  | LOCK_COND
  | LOCK_RW
deriving DecidableEq, Repr

/-- The C `struct thread`: the fields of the handle that carry model-visible
state.  `tid` (pthread_t) and `attr` (pthread_attr_t) are opaque OS objects
and are modelled as plain numbers; the `lock` union's payloads live inside
the external primitives and carry no state here.  `func` is the stored
entry-function pointer (`none` models a NULL pointer, `some f` an opaque
function identity), `arg` the opaque `void *` argument, `run` the running
flag. -/
structure Thread where
  tid : Nat
  attr : Nat
  type : lock_type
  func : Option Nat
  arg : Nat
  run : Bool
deriving DecidableEq, Repr

/-- The external synchronization primitives `libthread.c` calls, as opaque
events.  Wait primitives record the millisecond timeout argument. -/
inductive PrimCall
  | spin_lock
  | spin_unlock
  | mutex_lock
  | mutex_unlock
  | mutex_lock_init
  | mutex_lock_deinit
  | sem_lock_init
  | sem_lock_deinit
  | sem_lock_wait (ms : Int)
  | sem_lock_signal
  | mutex_cond_init
  | mutex_cond_deinit
  | mutex_cond_wait (ms : Int)
  | mutex_cond_signal
  | mutex_cond_signal_all
deriving DecidableEq, Repr

/-- The value a public operation returns: either an integer literal from
the C source (`const`), or whatever the named external primitive returned
(`ofPrim`, for `return primitive(...)` statements). -/
inductive CRet
  | const (i : Int)
  | ofPrim (p : PrimCall)
deriving DecidableEq, Repr

/-- Observable behavior of one call to a public operation: the primitives
invoked, in order, and the returned value. -/
structure OpResult where
  calls : List PrimCall
  ret : CRet
deriving DecidableEq, Repr

/-- Translation of `thread_lock` (libthread.c:193-209).  A NULL handle returns -1 with no
action; LOCK_MUTEX returns `mutex_lock(&t->lock.mutex)`; LOCK_SPIN returns
`spin_lock(&t->lock.spin)`; every other kind falls to `return -1`.  The
first component is the handle after the call: the body never writes any
field. -/
def thread_lock : Option Thread → Option Thread × OpResult
  | none => (none, ⟨[], .const (-1)⟩)
  | some t =>
    match t.type with
    | .LOCK_MUTEX => (some t, ⟨[.mutex_lock], .ofPrim .mutex_lock⟩)
    | .LOCK_SPIN => (some t, ⟨[.spin_lock], .ofPrim .spin_lock⟩)
    | _ => (some t, ⟨[], .const (-1)⟩)

/-- Translation of `thread_unlock` (libthread.c:211-227), same shape as `thread_lock`. -/
def thread_unlock : Option Thread → Option Thread × OpResult
  | none => (none, ⟨[], .const (-1)⟩)
  | some t =>
    match t.type with
    | .LOCK_MUTEX => (some t, ⟨[.mutex_unlock], .ofPrim .mutex_unlock⟩)
    | .LOCK_SPIN => (some t, ⟨[.spin_unlock], .ofPrim .spin_unlock⟩)
    | _ => (some t, ⟨[], .const (-1)⟩)

/-- Translation of `thread_wait` (libthread.c:229-246).  NULL returns -1; LOCK_COND and
LOCK_MUTEX share one `case` fall-through and both return
`mutex_cond_wait(&t->lock.mutex, &t->cond, ms)`; LOCK_SEM returns
`sem_lock_wait(&t->lock.sem, ms)`; every other kind returns -1. -/
def thread_wait : Option Thread → Int → Option Thread × OpResult
  | none, _ => (none, ⟨[], .const (-1)⟩)
  | some t, ms =>
    match t.type with
    | .LOCK_COND =>
        (some t, ⟨[.mutex_cond_wait ms], .ofPrim (.mutex_cond_wait ms)⟩)
    | .LOCK_MUTEX =>
        (some t, ⟨[.mutex_cond_wait ms], .ofPrim (.mutex_cond_wait ms)⟩)
    | .LOCK_SEM =>
        (some t, ⟨[.sem_lock_wait ms], .ofPrim (.sem_lock_wait ms)⟩)
    | _ => (some t, ⟨[], .const (-1)⟩)

/-- Translation of `thread_signal` (libthread.c:248-264).  NULL returns -1; LOCK_COND
calls `mutex_cond_signal(&t->cond)` then breaks to `return 0`; LOCK_SEM
returns `sem_lock_signal(&t->lock.sem)`; every other kind breaks out of
the switch and reaches `return 0` having done nothing. -/
def thread_signal : Option Thread → Option Thread × OpResult
  | none => (none, ⟨[], .const (-1)⟩)
  | some t =>
    match t.type with
    | .LOCK_COND => (some t, ⟨[.mutex_cond_signal], .const 0⟩)
    | .LOCK_SEM => (some t, ⟨[.sem_lock_signal], .ofPrim .sem_lock_signal⟩)
    | _ => (some t, ⟨[], .const 0⟩)

/-- Translation of `thread_signal_all` (libthread.c:266-279).  NULL returns -1; LOCK_COND
calls `mutex_cond_signal_all(&t->cond)` then reaches `return 0`; every
other kind reaches `return 0` having done nothing. -/
def thread_signal_all : Option Thread → Option Thread × OpResult
  | none => (none, ⟨[], .const (-1)⟩)
  | some t =>
    match t.type with
    | .LOCK_COND => (some t, ⟨[.mutex_cond_signal_all], .const 0⟩)
    | _ => (some t, ⟨[], .const 0⟩)

/-- Kind normalization in `thread_create` (libthread.c:62-65): any value
other than LOCK_SPIN, LOCK_MUTEX, LOCK_SEM, LOCK_COND becomes LOCK_COND. -/
def normalize_type (type : lock_type) : lock_type :=
  if type ≠ .LOCK_SPIN ∧ type ≠ .LOCK_MUTEX ∧
     type ≠ .LOCK_SEM ∧ type ≠ .LOCK_COND
  then .LOCK_COND
  else type

/-- The resources `thread_create` can acquire: the `calloc`ed struct, the
pthread attributes, and the per-kind lock primitive. -/
inductive Resource
  | heap
  | attr
  | mutexPrim
  | semPrim
  | condPrim
deriving DecidableEq, Repr

/-- Outcomes of the fallible external calls inside `thread_create`: which
of `calloc`, `pthread_attr_init`, the per-kind lock initializer, and
`pthread_create` succeed. -/
structure Env where
  calloc_ok : Bool
  attr_init_ok : Bool
  mutex_lock_init_ok : Bool
  sem_lock_init_ok : Bool
  mutex_cond_init_ok : Bool
  pthread_create_ok : Bool
deriving DecidableEq, Repr

/-- Result of one run of `thread_create`: the returned handle (`none` for
the NULL error return), the resources successfully acquired before
returning, in acquisition order, and the resources released before
returning. -/
structure CreateResult where
  handle : Option Thread
  acquired : List Resource
  released : List Resource
deriving DecidableEq, Repr

/-- Translation of `thread_create` (libthread.c:49-114).  `calloc` failure returns NULL
with nothing acquired (the `err:` label's `free(t)` is guarded by
`if (t)`).  Otherwise the kind is normalized and stored, then
`pthread_attr_init`; on its failure the `err:` path frees only the struct.
Then the per-kind lock initializer runs (LOCK_SPIN and the dead LOCK_RW
arm initialize nothing); on its failure the `err:` path again frees only
the struct, leaking the attributes.  Then `arg`, `func` are stored and
`run` set true, and `pthread_create` spawns the thread; on its failure the
`err:` path frees only the struct, leaking the attributes and any
initialized lock primitive.  On success the handle is returned with
nothing released. -/
def thread_create (func : Option Nat) (arg : Nat) (type0 : lock_type)
    (env : Env) : CreateResult :=
  if env.calloc_ok = false then
    { handle := none, acquired := [], released := [] }
  else
    let type := normalize_type type0
    if env.attr_init_ok = false then
      { handle := none, acquired := [.heap], released := [.heap] }
    else
      let lockInit : Option (List Resource) :=
        match type with
        | .LOCK_SPIN => some []
        | .LOCK_MUTEX =>
            if env.mutex_lock_init_ok then some [.mutexPrim] else none
        | .LOCK_SEM =>
            if env.sem_lock_init_ok then some [.semPrim] else none
        | .LOCK_COND =>
            if env.mutex_cond_init_ok then some [.condPrim] else none
        | .LOCK_RW => some []
      match lockInit with
      | none =>
          { handle := none, acquired := [.heap, .attr], released := [.heap] }
      | some lockRes =>
          if env.pthread_create_ok = false then
            { handle := none,
              acquired := [.heap, .attr] ++ lockRes,
              released := [.heap] }
          else
            { handle := some { tid := 0, attr := 0, type := type,
                               func := func, arg := arg, run := true },
              acquired := [.heap, .attr] ++ lockRes,
              released := [] }

/-- The observable steps of `thread_destroy`, in program order. -/
inductive DestroyStep
  | set_run_false
  | prim (p : PrimCall)
  | join
  | attr_destroy
  | free_handle
deriving DecidableEq, Repr

/-- Translation of `thread_destroy` (libthread.c:116-142).  NULL returns immediately.
Otherwise: `t->run = false`; then the per-kind switch — LOCK_SPIN nothing,
LOCK_SEM `sem_lock_deinit`, LOCK_MUTEX `mutex_lock_deinit`, LOCK_COND
`mutex_cond_signal_all` then `mutex_lock_deinit` then `mutex_cond_deinit`
— then `pthread_join`, `pthread_attr_destroy`, `free(t)`.  The first
component is the handle after the call: freed, hence `none`. -/
def thread_destroy : Option Thread → Option Thread × List DestroyStep
  | none => (none, [])
  | some t =>
    let teardown : List DestroyStep :=
      match t.type with
      | .LOCK_SPIN => []
      | .LOCK_SEM => [.prim .sem_lock_deinit]
      | .LOCK_MUTEX => [.prim .mutex_lock_deinit]
      | .LOCK_COND =>
          [.prim .mutex_cond_signal_all,
           .prim .mutex_lock_deinit,
           .prim .mutex_cond_deinit]
      | .LOCK_RW => []
    (none, .set_run_false :: teardown ++ [.join, .attr_destroy, .free_handle])

/-- The lock-primitive resources in an acquisition list (drops the heap
struct and the attributes, keeping only mutex/semaphore/condvar). -/
def lock_resources (l : List Resource) : List Resource :=
  l.filter (fun r => r ≠ .heap ∧ r ≠ .attr)

/-- The lock-primitive resources a `thread_destroy` trace deinitializes,
in order: `sem_lock_deinit` releases the semaphore, `mutex_lock_deinit`
the mutex, `mutex_cond_deinit` the condition variable. -/
def deinit_resources : List DestroyStep → List Resource
  | [] => []
  | .prim .sem_lock_deinit :: rest => .semPrim :: deinit_resources rest
  | .prim .mutex_lock_deinit :: rest => .mutexPrim :: deinit_resources rest
  | .prim .mutex_cond_deinit :: rest => .condPrim :: deinit_resources rest
  | _ :: rest => deinit_resources rest

/-- Observable events of the `__thread_func` trampoline. -/
inductive RunnerEvent
  | report_null_func
  | call_func (f : Nat) (handle : Thread) (arg : Nat)
deriving DecidableEq, Repr

/-- Translation of `__thread_func` (libthread.c:38-47): if `t->func` is NULL, print a
report and return NULL; otherwise call `t->func(t, t->arg)` and return
NULL. -/
def __thread_func (t : Thread) : List RunnerEvent :=
  match t.func with
  | none => [.report_null_func]
  | some f => [.call_func f t t.arg]

/-- The attribute fields `thread_info` reports, one per
`pthread_attr_get*` query. -/
inductive InfoField
  | detachstate
  | scope
  | inheritsched
  | schedpolicy
  | schedparam
  | guardsize
  | stack
deriving DecidableEq, Repr

/-- Which of the seven `pthread_attr_get*` queries succeed during one run
of `thread_info`. -/
structure InfoEnv where
  detachstate_ok : Bool
  scope_ok : Bool
  inheritsched_ok : Bool
  schedpolicy_ok : Bool
  schedparam_ok : Bool
  guardsize_ok : Bool
  stack_ok : Bool
deriving DecidableEq, Repr

/-- Translation of `thread_info` (libthread.c:144-191), Linux body.  Unlike the five
per-instance operations there is no `if (!t)` guard: the body immediately
passes `&t->attr` to the getters, so a NULL handle is dereferenced — that
fault is modelled as `Except.error ()`.  With a valid handle each query is
independent: a getter that fails is skipped and the rest still run. -/
def thread_info (t : Option Thread) (env : InfoEnv) :
    Except Unit (List InfoField) :=
  match t with
  | none => .error ()
  | some _ =>
      .ok ((if env.detachstate_ok then [InfoField.detachstate] else []) ++
           (if env.scope_ok then [InfoField.scope] else []) ++
           (if env.inheritsched_ok then [InfoField.inheritsched] else []) ++
           (if env.schedpolicy_ok then [InfoField.schedpolicy] else []) ++
           (if env.schedparam_ok then [InfoField.schedparam] else []) ++
           (if env.guardsize_ok then [InfoField.guardsize] else []) ++
           (if env.stack_ok then [InfoField.stack] else []))

/-- An environment in which every external call succeeds. -/
def envOK : Env :=
  { calloc_ok := true, attr_init_ok := true, mutex_lock_init_ok := true,
    sem_lock_init_ok := true, mutex_cond_init_ok := true,
    pthread_create_ok := true }

/-- Concrete handles for witnesses and counterexamples. -/
def tSpin : Thread :=
  { tid := 0, attr := 0, type := .LOCK_SPIN, func := some 1, arg := 0,
    run := true }

def tMutex : Thread :=
  { tid := 0, attr := 0, type := .LOCK_MUTEX, func := some 1, arg := 0,
    run := true }

def tSem : Thread :=
  { tid := 0, attr := 0, type := .LOCK_SEM, func := some 1, arg := 0,
    run := true }

def tCond : Thread :=
  { tid := 0, attr := 0, type := .LOCK_COND, func := some 1, arg := 0,
    run := true }

def tNullFunc : Thread :=
  { tid := 0, attr := 0, type := .LOCK_COND, func := none, arg := 7,
    run := true }


/-! ### Claim theorems -/

/-- C1 counterexample: `thread_signal` on a Spin-kind and on a Mutex-kind
handle, and `thread_signal_all` on a Semaphore-kind handle, each return 0
— the success value — performing no action, and the return value on the
Spin handle is identical to the return value of the supported CondVar
path, so the claimed distinguishable error is not returned. -/
theorem thread_signal_spin_mutex_silent_success :
    thread_signal (some tSpin) = (some tSpin, ⟨[], .const 0⟩) ∧
    thread_signal (some tMutex) = (some tMutex, ⟨[], .const 0⟩) ∧
    thread_signal_all (some tSem) = (some tSem, ⟨[], .const 0⟩) ∧
    (thread_signal (some tSpin)).2.ret = (thread_signal (some tCond)).2.ret :=
  ⟨rfl, rfl, rfl, rfl⟩

/-- C1 (amended): for every non-null handle of Spin or Mutex kind,
`thread_signal` returns 0 (the same success value as the supported CondVar
path) performing no primitive call, and for every non-null handle of Spin,
Mutex or Semaphore kind, `thread_signal_all` likewise returns 0 performing
no primitive call: the unsupported combinations silently succeed rather
than returning an error. -/
theorem thread_signal_unsupported_returns_zero (t : Thread) :
    (t.type = .LOCK_SPIN ∨ t.type = .LOCK_MUTEX →
      thread_signal (some t) = (some t, ⟨[], .const 0⟩)) ∧
    (t.type = .LOCK_SPIN ∨ t.type = .LOCK_MUTEX ∨ t.type = .LOCK_SEM →
      thread_signal_all (some t) = (some t, ⟨[], .const 0⟩)) := by
  constructor
  · rintro (h | h) <;> simp [thread_signal, h]
  · rintro (h | h | h) <;> simp [thread_signal_all, h]

/-- Witness for C1 (amended) at concrete Mutex- and Semaphore-kind
handles. -/
theorem thread_signal_unsupported_returns_zero_witness :
    thread_signal (some tMutex) = (some tMutex, ⟨[], .const 0⟩) ∧
    thread_signal_all (some tSem) = (some tSem, ⟨[], .const 0⟩) :=
  ⟨(thread_signal_unsupported_returns_zero tMutex).1 (Or.inr rfl),
   (thread_signal_unsupported_returns_zero tSem).2 (Or.inr (Or.inr rfl))⟩

/-- C2 counterexample: `thread_wait` on a non-null plain Mutex-kind handle
does not return the unsupported-operation error -1; it performs the
condition-variable wait `mutex_cond_wait`, with exactly the behavior of
the CondVar kind. -/
theorem thread_wait_mutex_counterexample :
    thread_wait (some tMutex) 100 =
      (some tMutex,
       ⟨[.mutex_cond_wait 100], .ofPrim (.mutex_cond_wait 100)⟩) ∧
    (thread_wait (some tMutex) 100).2 ≠ ⟨[], .const (-1)⟩ ∧
    (thread_wait (some tMutex) 100).2 = (thread_wait (some tCond) 100).2 :=
  ⟨rfl, by decide, rfl⟩

/-- C2 (amended): for every non-null plain Mutex-kind handle and every
timeout, `thread_wait` dispatches to the condition-variable wait
`mutex_cond_wait` — the Mutex case falls through to the CondVar case, so
its behavior is identical to a CondVar-kind handle's — rather than
returning the unsupported-operation error. -/
theorem thread_wait_mutex_eq_cond (t : Thread) (ms : Int)
    (h : t.type = .LOCK_MUTEX) :
    thread_wait (some t) ms =
      (some t, ⟨[.mutex_cond_wait ms], .ofPrim (.mutex_cond_wait ms)⟩) ∧
    ∀ u : Thread, u.type = .LOCK_COND →
      (thread_wait (some t) ms).2 = (thread_wait (some u) ms).2 := by
  constructor
  · simp [thread_wait, h]
  · intro u hu
    simp [thread_wait, h, hu]

/-- Witness for C2 (amended) at a concrete Mutex-kind handle and timeout
5, compared with a concrete CondVar-kind handle. -/
theorem thread_wait_mutex_eq_cond_witness :
    thread_wait (some tMutex) 5 =
      (some tMutex, ⟨[.mutex_cond_wait 5], .ofPrim (.mutex_cond_wait 5)⟩) ∧
    (thread_wait (some tMutex) 5).2 = (thread_wait (some tCond) 5).2 :=
  ⟨(thread_wait_mutex_eq_cond tMutex 5 rfl).1,
   (thread_wait_mutex_eq_cond tMutex 5 rfl).2 tCond rfl⟩

/-- An environment in which only the final `pthread_create` call fails. -/
def envSpawnFail : Env := { envOK with pthread_create_ok := false }

/-- An environment in which only `mutex_lock_init` fails. -/
def envMutexInitFail : Env := { envOK with mutex_lock_init_ok := false }

/-- C3: evaluation at the failing input.  When `thread_create` is called
with kind LOCK_MUTEX and `pthread_create` fails, the error path has
acquired the struct, the pthread attributes and the initialized mutex but
releases only the struct (`free(t)`), leaking the attributes and the
mutex; when instead `mutex_lock_init` fails, the acquired attributes are
likewise leaked.  This contradicts the claim that every acquired resource
is released on every failure path. -/
theorem thread_create_failure_leaks :
    thread_create (some 1) 0 .LOCK_MUTEX envSpawnFail =
      { handle := none, acquired := [.heap, .attr, .mutexPrim],
        released := [.heap] } ∧
    Resource.attr ∈ (thread_create (some 1) 0 .LOCK_MUTEX envSpawnFail).acquired ∧
    Resource.attr ∉ (thread_create (some 1) 0 .LOCK_MUTEX envSpawnFail).released ∧
    Resource.mutexPrim ∉ (thread_create (some 1) 0 .LOCK_MUTEX envSpawnFail).released ∧
    thread_create (some 1) 0 .LOCK_MUTEX envMutexInitFail =
      { handle := none, acquired := [.heap, .attr], released := [.heap] } ∧
    Resource.attr ∉ (thread_create (some 1) 0 .LOCK_MUTEX envMutexInitFail).released := by
  decide

/-- C4: evaluation at the failing input.  For a successful LOCK_COND
construction, `thread_create` initializes only the condition variable
(`mutex_cond_init(&t->cond)`), yet `thread_destroy` of the resulting
handle deinitializes both the mutex (`mutex_lock_deinit(&t->lock.mutex)`)
and the condition variable — it releases a mutex that construction never
initialized — while for Mutex, Semaphore and Spin kinds teardown does
release exactly what construction initialized. -/
theorem thread_destroy_cond_deinit_mismatch :
    lock_resources (thread_create (some 1) 0 .LOCK_COND envOK).acquired =
      [.condPrim] ∧
    deinit_resources
        (thread_destroy (thread_create (some 1) 0 .LOCK_COND envOK).handle).2 =
      [.mutexPrim, .condPrim] ∧
    Resource.mutexPrim ∉ (thread_create (some 1) 0 .LOCK_COND envOK).acquired ∧
    lock_resources (thread_create (some 1) 0 .LOCK_MUTEX envOK).acquired =
      deinit_resources
        (thread_destroy (thread_create (some 1) 0 .LOCK_MUTEX envOK).handle).2 ∧
    lock_resources (thread_create (some 1) 0 .LOCK_SEM envOK).acquired =
      deinit_resources
        (thread_destroy (thread_create (some 1) 0 .LOCK_SEM envOK).handle).2 ∧
    lock_resources (thread_create (some 1) 0 .LOCK_SPIN envOK).acquired =
      deinit_resources
        (thread_destroy (thread_create (some 1) 0 .LOCK_SPIN envOK).handle).2 := by
  decide

/-- C5: for every entry function, argument, environment and kind value
outside LOCK_SPIN, LOCK_MUTEX, LOCK_SEM, LOCK_COND, `thread_create`
behaves identically to `thread_create` with LOCK_COND: the kind is
normalized to LOCK_COND before any initialization, so the two
constructions produce the same handle, acquisitions and releases. -/
theorem thread_create_invalid_kind_eq_cond (f : Option Nat) (a : Nat)
    (env : Env) (k : lock_type)
    (h1 : k ≠ .LOCK_SPIN) (h2 : k ≠ .LOCK_MUTEX)
    (h3 : k ≠ .LOCK_SEM) (h4 : k ≠ .LOCK_COND) :
    thread_create f a k env = thread_create f a .LOCK_COND env := by
  have hk : normalize_type k = .LOCK_COND := by
    simp [normalize_type, h1, h2, h3, h4]
  have hc : normalize_type .LOCK_COND = .LOCK_COND := by
    simp [normalize_type]
  unfold thread_create
  rw [hk, hc]

/-- Witness for C5 at the concrete out-of-set value LOCK_RW. -/
theorem thread_create_invalid_kind_eq_cond_witness :
    lock_type.LOCK_RW ≠ lock_type.LOCK_SPIN ∧
    lock_type.LOCK_RW ≠ lock_type.LOCK_MUTEX ∧
    lock_type.LOCK_RW ≠ lock_type.LOCK_SEM ∧
    lock_type.LOCK_RW ≠ lock_type.LOCK_COND ∧
    thread_create (some 1) 0 .LOCK_RW envOK =
      thread_create (some 1) 0 .LOCK_COND envOK :=
  ⟨by decide, by decide, by decide, by decide,
   thread_create_invalid_kind_eq_cond (some 1) 0 envOK .LOCK_RW
     (by decide) (by decide) (by decide) (by decide)⟩

/-- C6: each of the five per-instance operations called with a null handle
returns the negative sentinel -1, performs no primitive call, and leaves
the (absent) handle untouched. -/
theorem ops_null_handle_return_neg_one (ms : Int) :
    thread_lock none = (none, ⟨[], .const (-1)⟩) ∧
    thread_unlock none = (none, ⟨[], .const (-1)⟩) ∧
    thread_wait none ms = (none, ⟨[], .const (-1)⟩) ∧
    thread_signal none = (none, ⟨[], .const (-1)⟩) ∧
    thread_signal_all none = (none, ⟨[], .const (-1)⟩) :=
  ⟨rfl, rfl, rfl, rfl, rfl⟩

/-- C7: `thread_destroy` of a null handle is an immediate no-op, and for
every non-null handle the step trace is exactly: set the running flag
false, then the per-kind lock teardown (nothing for Spin; the semaphore
deinit for Semaphore; the mutex deinit for Mutex; for CondVar the
broadcast `mutex_cond_signal_all` strictly before the two
deinitializations), then the thread join, then the attribute release, and
finally the release of the handle itself. -/
theorem thread_destroy_step_order :
    thread_destroy none = (none, []) ∧
    (∀ t : Thread, t.type = .LOCK_SPIN →
      thread_destroy (some t) =
        (none, [.set_run_false, .join, .attr_destroy, .free_handle])) ∧
    (∀ t : Thread, t.type = .LOCK_MUTEX →
      thread_destroy (some t) =
        (none, [.set_run_false, .prim .mutex_lock_deinit,
                .join, .attr_destroy, .free_handle])) ∧
    (∀ t : Thread, t.type = .LOCK_SEM →
      thread_destroy (some t) =
        (none, [.set_run_false, .prim .sem_lock_deinit,
                .join, .attr_destroy, .free_handle])) ∧
    (∀ t : Thread, t.type = .LOCK_COND →
      thread_destroy (some t) =
        (none, [.set_run_false, .prim .mutex_cond_signal_all,
                .prim .mutex_lock_deinit, .prim .mutex_cond_deinit,
                .join, .attr_destroy, .free_handle])) := by
  refine ⟨rfl, ?_, ?_, ?_, ?_⟩ <;>
    · intro t h
      simp [thread_destroy, h]

/-- Witness for C7 at concrete CondVar- and Spin-kind handles. -/
theorem thread_destroy_step_order_witness :
    thread_destroy (some tCond) =
      (none, [.set_run_false, .prim .mutex_cond_signal_all,
              .prim .mutex_lock_deinit, .prim .mutex_cond_deinit,
              .join, .attr_destroy, .free_handle]) ∧
    thread_destroy (some tSpin) =
      (none, [.set_run_false, .join, .attr_destroy, .free_handle]) :=
  ⟨thread_destroy_step_order.2.2.2.2 tCond rfl,
   thread_destroy_step_order.2.1 tSpin rfl⟩

/-- C8: none of the five per-instance operations modifies the handle (so
the stored kind, entry function, argument and running flag are untouched
by them); a successful `thread_create` returns a handle whose kind is the
normalized requested kind, whose entry function and argument are exactly
the ones passed, and whose running flag is true; and `thread_destroy` of a
non-null handle begins by setting the running flag false — the only write
to it outside creation. -/
theorem handle_fields_written_only_by_create_destroy
    (h : Option Thread) (ms : Int) (f : Option Nat) (a : Nat)
    (k : lock_type) (env : Env) (t : Thread) :
    (thread_lock h).1 = h ∧
    (thread_unlock h).1 = h ∧
    (thread_wait h ms).1 = h ∧
    (thread_signal h).1 = h ∧
    (thread_signal_all h).1 = h ∧
    ((thread_create f a k env).handle = none ∨
      (thread_create f a k env).handle =
        some { tid := 0, attr := 0, type := normalize_type k,
               func := f, arg := a, run := true }) ∧
    (thread_destroy (some t)).2.head? = some .set_run_false := by
  refine ⟨?_, ?_, ?_, ?_, ?_, ?_, ?_⟩
  · cases h with
    | none => rfl
    | some u => cases hu : u.type <;> simp [thread_lock, hu]
  · cases h with
    | none => rfl
    | some u => cases hu : u.type <;> simp [thread_unlock, hu]
  · cases h with
    | none => rfl
    | some u => cases hu : u.type <;> simp [thread_wait, hu]
  · cases h with
    | none => rfl
    | some u => cases hu : u.type <;> simp [thread_signal, hu]
  · cases h with
    | none => rfl
    | some u => cases hu : u.type <;> simp [thread_signal_all, hu]
  · rcases env with ⟨c, ai, mi, si, ci, pc⟩
    cases k <;> cases c <;> cases ai <;> cases mi <;> cases si <;>
      cases ci <;> cases pc <;>
        simp [thread_create, normalize_type]
  · cases ht : t.type <;> simp [thread_destroy, ht]

/-- C9: if the stored entry function of the handle given to the
`__thread_func` trampoline is absent, the trampoline only reports the null
function and performs no invocation; otherwise it invokes the entry
function exactly once, passing the handle itself and the stored
argument. -/
theorem thread_func_null_guard (t : Thread) :
    (t.func = none → __thread_func t = [.report_null_func]) ∧
    (∀ f, t.func = some f → __thread_func t = [.call_func f t t.arg]) := by
  constructor
  · intro h
    simp [__thread_func, h]
  · intro f h
    simp [__thread_func, h]

/-- Witness for C9 at a concrete null-function handle and a concrete
handle with entry function 1 and argument 0. -/
theorem thread_func_null_guard_witness :
    __thread_func tNullFunc = [.report_null_func] ∧
    __thread_func tCond = [.call_func 1 tCond 0] :=
  ⟨(thread_func_null_guard tNullFunc).1 rfl,
   (thread_func_null_guard tCond).2 1 rfl⟩

/-- C10: `thread_info` has no null-handle guard — called on a null handle
it immediately dereferences `t->attr` (modelled as the error outcome),
whereas each of the five per-instance operations called on the same null
handle returns normally with the -1 sentinel. -/
theorem thread_info_no_null_guard (env : InfoEnv) (ms : Int) :
    thread_info none env = .error () ∧
    thread_lock none = (none, ⟨[], .const (-1)⟩) ∧
    thread_unlock none = (none, ⟨[], .const (-1)⟩) ∧
    thread_wait none ms = (none, ⟨[], .const (-1)⟩) ∧
    thread_signal none = (none, ⟨[], .const (-1)⟩) ∧
    thread_signal_all none = (none, ⟨[], .const (-1)⟩) :=
  ⟨rfl, rfl, rfl, rfl, rfl, rfl⟩

end Libthread
